import Mathlib

/-!
Shallow embedding, in Lean 4, of the PMTiles validation, upload ingestion,
tile serving, and tree-identifier logic of the Orchardmapping repository.

The definitions below are translated from the TypeScript source:
* `validatePMTilesFile`, `processUpload` — the orchard-creation route
  (upload ingestion and PMTiles validation).
* `tilesGET`, `detectContentType`, `MBTILES_PATHS` — the tile-serving route
  `GET /api/tiles/[orchard]/[z]/[x]/[y]`.
* `validatePMTiles` — `src/lib/pmtiles-utils.ts`.
* `generateTreeId`, `checkDuplicateRowPosition` — `src/lib/db/trees.ts`.
* `pmtilesTypeName`, `isRasterType`, `isVectorType` — the repository's own
  PMTiles type-inspection script (byte 52 of the header).
* `tmsFlip` — the TMS/XYZ row conversion used by the repository's
  bounds-calculation script.

External collaborators (the `pmtiles` library's header reader, the sqlite
database, the filesystem) are modelled as explicit inputs; JavaScript
`undefined` becomes `Option`, JavaScript numbers become `ℚ` where fractional
values matter and `Nat`/`Int` otherwise.
-/

/-- String containment: `containsSeq n h` is true when the character list `n`
occurs contiguously inside `h`. Used to state that an error or warning
message "mentions" a value. -/
def isPrefixSeq : List Char → List Char → Bool
  | [], _ => true
  | _ :: _, [] => false
  | a :: as, b :: bs => a = b && isPrefixSeq as bs

/-- The check `containsSeq needle hay` is true when `needle` occurs contiguously in `hay`. -/
def containsSeq (needle : List Char) : List Char → Bool
  | [] => isPrefixSeq needle []
  | b :: rest => isPrefixSeq needle (b :: rest) || containsSeq needle rest

/-- A string mentions another when the latter occurs as a contiguous substring. -/
def mentions (needle hay : String) : Bool :=
  containsSeq needle.data hay.data

theorem isPrefixSeq_append (l t : List Char) : isPrefixSeq l (l ++ t) = true := by
  induction l with
  | nil => rfl
  | cons a as ih => simp [isPrefixSeq, ih]

theorem containsSeq_nil_needle (hay : List Char) : containsSeq [] hay = true := by
  cases hay with
  | nil => rfl
  | cons b bs => simp [containsSeq, isPrefixSeq]

theorem containsSeq_append (n pre post : List Char) :
    containsSeq n (pre ++ n ++ post) = true := by
  induction pre with
  | nil =>
    cases n with
    | nil => simpa using containsSeq_nil_needle post
    | cons a as =>
      have h1 := isPrefixSeq_append (a :: as) post
      simp only [List.cons_append, List.nil_append] at h1 ⊢
      simp [containsSeq, h1]
  | cons b bs ih =>
    simp only [List.append_assoc] at ih
    simp only [List.cons_append, List.append_assoc]
    simp [containsSeq, ih]

theorem string_data_append (a b : String) : (a ++ b).data = a.data ++ b.data := by
  cases a
  cases b
  rfl

theorem mentions_append_middle (needle a b : String) :
    mentions needle (a ++ needle ++ b) = true := by
  unfold mentions
  rw [string_data_append, string_data_append]
  exact containsSeq_append needle.data a.data b.data

/-! ## PMTiles header validation (orchard-creation route, `validatePMTilesFile`)

The route reads the header through the external `pmtiles` library inside a
`try`/`catch`.  The outcome of that external read is the input of the
embedding: an exception (`readError`), a missing header (`noHeader`), or a
parsed header record (`ok`).  Header fields that the source checks against
JavaScript `undefined` (the four bounds) or reads with `??` (the two center
coordinates) are `Option ℚ`; the remaining numeric fields are `ℚ` except the
tile-type code, which is an integer. -/

structure PMTilesHeader where
  minZoom : ℚ
  maxZoom : ℚ
  minLon : Option ℚ
  minLat : Option ℚ
  maxLon : Option ℚ
  maxLat : Option ℚ
  centerZoom : ℚ
  centerLon : Option ℚ
  centerLat : Option ℚ
  tileType : ℤ
  deriving Repr, DecidableEq

inductive HeaderRead where
  | readError (msg : String)
  | noHeader
  | ok (h : PMTilesHeader)
  deriving Repr, DecidableEq

inductive TileKind where
  | raster
  | vector
  deriving Repr, DecidableEq

structure MetaBounds where
  minLng : ℚ
  minLat : ℚ
  maxLng : ℚ
  maxLat : ℚ
  deriving Repr, DecidableEq

structure MetaCenter where
  lng : ℚ
  lat : ℚ
  deriving Repr, DecidableEq

structure ValidationMetadata where
  bounds : MetaBounds
  center : MetaCenter
  minZoom : ℚ
  maxZoom : ℚ
  tileType : TileKind
  deriving Repr, DecidableEq

/-- The validation outcome record.  `warnings` is `none` when the source
returns `undefined` (empty warning list), mirroring
`warnings.length > 0 ? warnings : undefined`. -/
structure ValidationResult where
  valid : Bool
  error : Option String
  warnings : Option (List String)
  metadata : Option ValidationMetadata
  deriving Repr, DecidableEq

def invalidResult (msg : String) : ValidationResult :=
  { valid := false, error := some msg, warnings := none, metadata := none }

def vectorWarning : String :=
  "Vector PMTiles detected. This endpoint is optimized for raster/imagery tiles."

def worldBoundsWarning : String :=
  "PMTiles appears to have world bounds. This may indicate incorrect georeferencing."

def maxZoomCapWarning (original : ℚ) : String :=
  "Max zoom capped at 21.5 (was " ++ toString original ++ ") to prevent map rendering issues."

def unsupportedTileTypeMsg (t : ℤ) : String :=
  "Unsupported tile type: " ++ toString t ++ ". Expected raster (1) or vector (2)."

/-- The body of `validatePMTilesFile` after the tile-type branch: bounds
presence check, world-bounds warning, center derivation, max-zoom clamp,
and assembly of the metadata record.  `w1` carries the warnings pushed by
the tile-type step. -/
def validateHeaderBody (h : PMTilesHeader) (tk : TileKind) (w1 : List String) :
    ValidationResult :=
  match h.minLon, h.minLat, h.maxLon, h.maxLat with
  | some minLon, some minLat, some maxLon, some maxLat =>
    let w2 := if minLon ≤ -180 ∧ maxLon ≥ 180 ∧ minLat ≤ -85 ∧ maxLat ≥ 85
      then w1 ++ [worldBoundsWarning] else w1
    let centerLng := h.centerLon.getD ((minLon + maxLon) / 2)
    let centerLat := h.centerLat.getD ((minLat + maxLat) / 2)
    let maxZoomC := min h.maxZoom (21.5 : ℚ)
    let w3 := if h.maxZoom > (21.5 : ℚ)
      then w2 ++ [maxZoomCapWarning h.maxZoom] else w2
    { valid := true
      error := none
      warnings := if 0 < w3.length then some w3 else none
      metadata := some
        { bounds := { minLng := minLon, minLat := minLat, maxLng := maxLon, maxLat := maxLat }
          center := { lng := centerLng, lat := centerLat }
          minZoom := h.minZoom
          maxZoom := maxZoomC
          tileType := tk } }
  | _, _, _, _ =>
    invalidResult "PMTiles file does not contain valid geographic bounds"

/-- The function `validatePMTilesFile` from the orchard-creation route: tile-type gate
(code 1 accepted as raster, code 2 accepted as vector with a warning, any
other code is a hard failure naming it), then the header body above.  A
thrown read error lands in the route's `catch`; a falsy header yields the
"could not read" failure. -/
def validatePMTilesFile (input : HeaderRead) : ValidationResult :=
  match input with
  | HeaderRead.readError msg =>
    invalidResult ("Failed to validate PMTiles: " ++ msg)
  | HeaderRead.noHeader =>
    invalidResult "Could not read PMTiles header"
  | HeaderRead.ok h =>
    if h.tileType = 1 then
      validateHeaderBody h TileKind.raster []
    else if h.tileType = 2 then
      validateHeaderBody h TileKind.vector [vectorWarning]
    else
      invalidResult (unsupportedTileTypeMsg h.tileType)

/-! ## Client-side PMTiles validation (`src/lib/pmtiles-utils.ts`)

`validatePMTiles` wraps the external header/metadata fetch in `try`/`catch`:
a successful fetch yields `valid=true` with the metadata returned by the
library, an exception yields `valid=false` with the exception's message
(falling back to a fixed message when it is empty, mirroring
`error.message || 'Failed to load PMTiles file'`).  The `vector_layers`
inspection in the source only logs and does not change the result. -/

structure ClientPMTilesMetadata where
  vector_layers : Option (List String)
  deriving Repr, DecidableEq

structure ClientValidation where
  valid : Bool
  error : Option String
  metadata : Option ClientPMTilesMetadata
  deriving Repr, DecidableEq

def validatePMTiles (fetchResult : Except String ClientPMTilesMetadata) :
    ClientValidation :=
  match fetchResult with
  | Except.ok m => { valid := true, error := none, metadata := some m }
  | Except.error msg =>
    { valid := false
      error := some (if msg = "" then "Failed to load PMTiles file" else msg)
      metadata := none }

/-! ## Upload ingestion flow (orchard-creation route `POST`)

The flow after the temporary upload file has been written: validate, and on
failure answer 400 with the structured error while the `finally` block
removes the temporary file; on success move the file into the orchard
directory, insert the orchard row, and rewrite the orchard configuration
registry.  `uploadedFileAt` records where the uploaded bytes remain after
the `finally` cleanup (`none` = the temporary file was removed and nothing
was kept). -/

structure OrchardInsert where
  id : String
  name : String
  location : String
  center_lat : ℚ
  center_lng : ℚ
  deriving Repr, DecidableEq

structure IngestOutcome where
  status : Nat
  errorText : Option String
  warningsOut : List String
  orchardInserted : Option OrchardInsert
  configUpdated : Bool
  uploadedFileAt : Option String
  deriving Repr, DecidableEq

def processUpload (orchardId name location : String) (headerRead : HeaderRead) :
    IngestOutcome :=
  let validation := validatePMTilesFile headerRead
  if validation.valid = false then
    { status := 400
      errorText := some (validation.error.getD "Invalid PMTiles file")
      warningsOut := []
      orchardInserted := none
      configUpdated := false
      uploadedFileAt := none }
  else
    match validation.metadata with
    | none =>
      { status := 400
        errorText := some "Could not extract metadata from PMTiles file"
        warningsOut := []
        orchardInserted := none
        configUpdated := false
        uploadedFileAt := none }
    | some md =>
      { status := 200
        errorText := none
        warningsOut := validation.warnings.getD []
        orchardInserted := some
          { id := orchardId, name := name, location := location
            center_lat := md.center.lat, center_lng := md.center.lng }
        configUpdated := true
        uploadedFileAt := some ("public/orchards/" ++ orchardId ++ "/tiles/orthomap.pmtiles") }

/-! ## PMTiles tile-type table (repository type-inspection script)

The repository's own script reads byte 52 of the PMTiles header and names
the codes: 0 Unknown, 1 MVT, 2 PNG, 3 JPEG, 4 WEBP, 5 AVIF; codes 2..5 are
raster imagery and code 1 is vector data. -/

def pmtilesTypeName (t : ℤ) : String :=
  if t = 0 then "Unknown"
  else if t = 1 then "MVT (Mapbox Vector Tiles)"
  else if t = 2 then "PNG"
  else if t = 3 then "JPEG"
  else if t = 4 then "WEBP"
  else if t = 5 then "AVIF"
  else "Unknown"

def isRasterType (t : ℤ) : Bool :=
  2 ≤ t && t ≤ 5

def isVectorType (t : ℤ) : Bool :=
  t = 1

/-! ## Tile serving (`GET /api/tiles/[orchard]/[z]/[x]/[y]`)

The route resolves the orchard in a fixed path table, uses the requested
row directly as the mbtiles row key (`const tmsY = tileY` — the route's
comments record that the served mbtiles files already use XYZ row
numbering, so no flip is applied), queries the sqlite `tiles` table
(modelled as the function `db : path → zoom → column → row → bytes`), and
sniffs the content type from the tile's first two bytes. -/

def MBTILES_PATHS (orchard : String) : Option String :=
  if orchard = "manytrees" then
    some "public/orchards/manytreesorchard/manytrees.mbtiles"
  else if orchard = "washington" then
    some "public/orchards/washington/tiles/orthomap.mbtiles"
  else none

/-- Source line `const tmsY = tileY; // No flip needed if already in XYZ format`. -/
def tmsYOf (tileY : Nat) : Nat := tileY

/-- TMS/XYZ row conversion from the repository's bounds-calculation script:
`tms_y = (2^zoom - 1) - xyz_y`, computed there as `maxTiles - y - 1` with
`maxTiles = 2^zoom`. -/
def tmsFlip (zoom y : Nat) : ℤ :=
  (2 : ℤ) ^ zoom - y - 1

inductive RowConvention where
  | originNW
  | originSW
  deriving Repr, DecidableEq

/-- Modelled from the spec: the per-archive row-coordinate reconciliation
(§4.3): an archive configured "origin south-west" resolves a requested row
`r` (origin-north-west addressing) to stored row `totalRows - 1 - r`; an
archive configured "origin north-west" applies no transform. -/
def reconcileRowSpec (conv : RowConvention) (totalRows r : ℤ) : ℤ :=
  match conv with
  | RowConvention.originSW => totalRows - 1 - r
  | RowConvention.originNW => r

/-- The per-archive row convention recorded in the tile route for the
archives it serves: the route's comment records that the mbtiles rows
already follow the XYZ (origin-north-west) numbering ("This mbtiles appears
to already use XYZ format, not TMS ... No flip needed"), a per-file fact
determined when the archive was brought into the system. -/
def archiveRowConvention (orchard : String) : RowConvention :=
  match orchard with
  | _ => RowConvention.originNW

structure TileResponse where
  status : Nat
  text : String
  body : Option (List Nat)
  contentType : Option String
  cacheControl : Option String
  corsAllowOrigin : Option String
  deriving Repr, DecidableEq

def detectContentType (tileData : List Nat) : String :=
  if tileData[0]? = some 0x89 ∧ tileData[1]? = some 0x50 then "image/png"
  else if tileData[0]? = some 0xFF ∧ tileData[1]? = some 0xD8 then "image/jpeg"
  else if tileData[0]? = some 0x52 ∧ tileData[1]? = some 0x49 then "image/webp"
  else "application/octet-stream"

def tilesGET (db : String → Nat → Nat → Nat → Option (List Nat))
    (orchard : String) (z x y : Nat) : TileResponse :=
  match MBTILES_PATHS orchard with
  | none =>
    { status := 404, text := "Orchard '" ++ orchard ++ "' not found"
      body := none, contentType := none, cacheControl := none, corsAllowOrigin := none }
  | some mbtilesPath =>
    let tmsY := tmsYOf y
    match db mbtilesPath z x tmsY with
    | none =>
      { status := 404
        text := "Tile not found: " ++ toString z ++ "/" ++ toString x ++ "/"
          ++ toString y ++ " (TMS: " ++ toString tmsY ++ ")"
        body := none, contentType := none, cacheControl := none, corsAllowOrigin := none }
    | some tileData =>
      { status := 200, text := ""
        body := some tileData
        contentType := some (detectContentType tileData)
        cacheControl := some "public, max-age=31536000, immutable"
        corsAllowOrigin := some "*" }

/-! ## Tree identifiers (`src/lib/db/trees.ts`) -/

/-- JavaScript `String.prototype.padStart` with a single-character pad. -/
def padStart (s : String) (targetLength : Nat) (padChar : Char) : String :=
  String.mk (List.replicate (targetLength - s.length) padChar) ++ s

/-- The function `generateTreeId`: `[ORCHARD_ID]-R[ROW_ID]-P[POSITION]` with the row id
left-padded with zeros to 2 characters and the position to 3. -/
def generateTreeId (orchardId rowId : String) (position : Nat) : String :=
  orchardId ++ "-R" ++ padStart rowId 2 '0' ++ "-P" ++ padStart (toString position) 3 '0'

structure TreeLocation where
  orchard_id : String
  row_id : String
  position : Nat
  deriving Repr, DecidableEq

/-- The check `checkDuplicateRowPosition`: a row exists with exactly this
`(orchard_id, row_id, position)` triple (SQL equality on each column). -/
def checkDuplicateRowPosition (trees : List TreeLocation)
    (orchard_id row_id : String) (position : Nat) : Bool :=
  trees.any (fun t =>
    t.orchard_id = orchard_id && t.row_id = row_id && t.position = position)

/-- The identifier produced by `insertTree`: the duplicate check gates the
insert (an exact `(orchard, row, position)` match raises an error, modelled
as `none`), otherwise the auto-generated `tree_id` is used. -/
def insertTreeId (trees : List TreeLocation) (orchard_id row_id : String)
    (position : Nat) : Option String :=
  if checkDuplicateRowPosition trees orchard_id row_id position then none
  else some (generateTreeId orchard_id row_id position)

/-! ## Theorems -/

/-- A JPEG-typed header (tile-type code 3 in the repository's own PMTiles
type table): well-formed bounds, modest zoom range, no explicit center. -/
def jpegHeader : PMTilesHeader :=
  { minZoom := 5, maxZoom := 20
    minLon := some (-123169/1000), minLat := some (48141/1000)
    maxLon := some (-123167/1000), maxLat := some (48142/1000)
    centerZoom := 17, centerLon := none, centerLat := none
    tileType := 3 }

/-- C2: the validator accepts only tile-type codes 1 and 2, but by the
repository's own tile-type table code 3 is JPEG — a raster-compatible
type — and the validator hard-fails on it, naming the numeric code.  So
acceptance does not coincide with "raster-compatible or vector": the
raster-compatible JPEG header is rejected. -/
theorem validate_rejects_raster_jpeg :
    isRasterType jpegHeader.tileType = true
    ∧ pmtilesTypeName jpegHeader.tileType = "JPEG"
    ∧ (validatePMTilesFile (HeaderRead.ok jpegHeader)).valid = false
    ∧ (validatePMTilesFile (HeaderRead.ok jpegHeader)).error
        = some "Unsupported tile type: 3. Expected raster (1) or vector (2)."
    ∧ mentions "3" ((validatePMTilesFile (HeaderRead.ok jpegHeader)).error.getD "")
        = true := by
  refine ⟨by decide, by decide, by decide, by decide, by decide⟩

/-- C9: the served content type is decided solely by the tile's first two
bytes — 0x89 0x50 is PNG, 0xFF 0xD8 is JPEG, 0x52 0x49 is WEBP, anything
else the generic binary type — and a successful tile response carries
exactly this sniffed type. -/
theorem content_type_by_magic_bytes
    (b0 b1 : Nat) (rest rest' tile : List Nat)
    (db : String → Nat → Nat → Nat → Option (List Nat))
    (o p : String) (z x y : Nat)
    (hnot : ¬((b0 = 0x89 ∧ b1 = 0x50) ∨ (b0 = 0xFF ∧ b1 = 0xD8)
        ∨ (b0 = 0x52 ∧ b1 = 0x49)))
    (hp : MBTILES_PATHS o = some p)
    (htile : db p z x (tmsYOf y) = some tile) :
    detectContentType (0x89 :: 0x50 :: rest) = "image/png"
    ∧ detectContentType (0xFF :: 0xD8 :: rest) = "image/jpeg"
    ∧ detectContentType (0x52 :: 0x49 :: rest) = "image/webp"
    ∧ detectContentType (b0 :: b1 :: rest) = "application/octet-stream"
    ∧ detectContentType (b0 :: b1 :: rest) = detectContentType (b0 :: b1 :: rest')
    ∧ (tilesGET db o z x y).contentType = some (detectContentType tile) := by
  have e1 : ¬(b0 = 0x89 ∧ b1 = 0x50) := fun hc => hnot (Or.inl hc)
  have e2 : ¬(b0 = 0xFF ∧ b1 = 0xD8) := fun hc => hnot (Or.inr (Or.inl hc))
  have e3 : ¬(b0 = 0x52 ∧ b1 = 0x49) := fun hc => hnot (Or.inr (Or.inr hc))
  refine ⟨by simp [detectContentType], by simp [detectContentType],
    by simp [detectContentType], ?_, ?_, ?_⟩
  · simp only [detectContentType, List.getElem?_cons_zero,
      List.getElem?_cons_succ, Option.some.injEq]
    rw [if_neg e1, if_neg e2, if_neg e3]
  · simp only [detectContentType, List.getElem?_cons_zero,
      List.getElem?_cons_succ, Option.some.injEq]
  · simp only [tilesGET, hp, htile]

/-- Witness for C9 at concrete bytes 0x00 0x00 and a PNG-signature tile
served for the `manytrees` archive. -/
theorem content_type_by_magic_bytes_witness :
    detectContentType (0x89 :: 0x50 :: [1]) = "image/png"
    ∧ detectContentType (0xFF :: 0xD8 :: [1]) = "image/jpeg"
    ∧ detectContentType (0x52 :: 0x49 :: [1]) = "image/webp"
    ∧ detectContentType (0 :: 0 :: [1]) = "application/octet-stream"
    ∧ detectContentType (0 :: 0 :: [1]) = detectContentType (0 :: 0 :: [2])
    ∧ (tilesGET (fun _ _ _ _ => some [0x89, 0x50]) "manytrees" 14 100 200).contentType
        = some (detectContentType [0x89, 0x50]) :=
  content_type_by_magic_bytes 0 0 [1] [2] [0x89, 0x50]
    (fun _ _ _ _ => some [0x89, 0x50])
    "manytrees" "public/orchards/manytreesorchard/manytrees.mbtiles" 14 100 200
    (by decide) (by decide) rfl

/-- C10: the zero-padded tree identifier collapses the distinct row ids
`"1"` and `"01"` to the same `tree_id`, while the pre-insert duplicate
check compares `row_id` by exact equality and so treats the two as
different locations: with a tree already stored at row `"1"`, inserting at
row `"01"` at the same position passes the duplicate check and yet
produces the already-used identifier. -/
theorem tree_id_padding_collision (o : String) (p : Nat) :
    generateTreeId o "1" p = generateTreeId o "01" p
    ∧ ("1" : String) ≠ "01"
    ∧ checkDuplicateRowPosition [⟨o, "1", p⟩] o "01" p = false
    ∧ insertTreeId [⟨o, "1", p⟩] o "01" p = some (generateTreeId o "1" p) := by
  have hpad : padStart "1" 2 '0' = padStart "01" 2 '0' := by decide
  have hdup : checkDuplicateRowPosition [⟨o, "1", p⟩] o "01" p = false := by
    simp [checkDuplicateRowPosition]
  have hid : generateTreeId o "1" p = generateTreeId o "01" p := by
    unfold generateTreeId
    rw [hpad]
  refine ⟨hid, by decide, hdup, ?_⟩
  rw [insertTreeId, hdup]
  simp [hid]

/-- C1: each archive the tile route serves is recorded as already using the
origin-north-west (XYZ) row numbering, and for such an archive the row used
as the mbtiles lookup key is exactly the spec's reconciliation — the
identity; under the origin-south-west convention the reconciliation
mandates stored row `N-1-r`, which is precisely the TMS conversion the
repository's own bounds script uses; and the route's response depends on
the database only at the reconciled key `(z, x, tmsY)`. -/
theorem row_convention_reconciliation (o p : String)
    (hp : MBTILES_PATHS o = some p) (z x y : Nat) (n r : ℤ)
    (db db' : String → Nat → Nat → Nat → Option (List Nat))
    (hdb : db p z x (tmsYOf y) = db' p z x (tmsYOf y)) :
    archiveRowConvention o = RowConvention.originNW
    ∧ ((tmsYOf y : ℤ) = reconcileRowSpec (archiveRowConvention o) ((2 : ℤ) ^ z) (y : ℤ))
    ∧ reconcileRowSpec RowConvention.originSW n r = n - 1 - r
    ∧ reconcileRowSpec RowConvention.originSW ((2 : ℤ) ^ z) (y : ℤ) = tmsFlip z y
    ∧ tilesGET db o z x y = tilesGET db' o z x y := by
  refine ⟨rfl, rfl, rfl, ?_, ?_⟩
  · show (2 : ℤ) ^ z - 1 - (y : ℤ) = (2 : ℤ) ^ z - (y : ℤ) - 1
    ring
  · simp only [tilesGET, hp, hdb]

/-- Witness for C1: the `manytrees` archive at request (z=14, x=100, y=200)
with 2^14 rows. -/
theorem row_convention_reconciliation_witness :
    archiveRowConvention "manytrees" = RowConvention.originNW
    ∧ ((tmsYOf 200 : ℤ)
        = reconcileRowSpec (archiveRowConvention "manytrees") ((2 : ℤ) ^ 14) (200 : ℤ))
    ∧ reconcileRowSpec RowConvention.originSW 16384 200 = 16384 - 1 - 200
    ∧ reconcileRowSpec RowConvention.originSW ((2 : ℤ) ^ 14) (200 : ℤ) = tmsFlip 14 200
    ∧ tilesGET (fun _ _ _ _ => none) "manytrees" 14 100 200
        = tilesGET (fun _ _ _ _ => none) "manytrees" 14 100 200 :=
  row_convention_reconciliation "manytrees"
    "public/orchards/manytreesorchard/manytrees.mbtiles" (by decide)
    14 100 200 16384 200 (fun _ _ _ _ => none) (fun _ _ _ _ => none) rfl

/-- C8: a request for an orchard absent from the path table is answered
with a plain 404 naming the orchard, and a request whose reconciled
`(zoom, column, row)` key has no stored tile is answered with a 404 whose
text spells out the requested coordinate. -/
theorem tile_not_found_responses (o1 o2 p : String)
    (h1 : MBTILES_PATHS o1 = none) (h2 : MBTILES_PATHS o2 = some p)
    (db : String → Nat → Nat → Nat → Option (List Nat)) (z x y : Nat)
    (hmiss : db p z x (tmsYOf y) = none) :
    (tilesGET db o1 z x y).status = 404
    ∧ (tilesGET db o1 z x y).text = "Orchard '" ++ o1 ++ "' not found"
    ∧ (tilesGET db o2 z x y).status = 404
    ∧ (tilesGET db o2 z x y).text
        = "Tile not found: " ++ toString z ++ "/" ++ toString x ++ "/"
          ++ toString y ++ " (TMS: " ++ toString (tmsYOf y) ++ ")"
    ∧ mentions (toString z ++ "/" ++ toString x ++ "/" ++ toString y)
        ((tilesGET db o2 z x y).text) = true := by
  refine ⟨by simp [tilesGET, h1], by simp [tilesGET, h1],
    by simp [tilesGET, h2, hmiss], by simp [tilesGET, h2, hmiss], ?_⟩
  simp only [tilesGET, h2, hmiss]
  show mentions (toString z ++ "/" ++ toString x ++ "/" ++ toString y)
    ("Tile not found: " ++ toString z ++ "/" ++ toString x ++ "/"
      ++ toString y ++ " (TMS: " ++ toString (tmsYOf y) ++ ")") = true
  have hsplit :
      "Tile not found: " ++ toString z ++ "/" ++ toString x ++ "/"
        ++ toString y ++ " (TMS: " ++ toString (tmsYOf y) ++ ")"
      = "Tile not found: "
        ++ (toString z ++ "/" ++ toString x ++ "/" ++ toString y)
        ++ (" (TMS: " ++ toString (tmsYOf y) ++ ")") := by
    apply congrArg String.mk
    simp only [string_data_append, List.append_assoc]
  rw [hsplit]
  exact mentions_append_middle _ _ _

/-- Witness for C8: unknown orchard `nosuch`, and a `manytrees` request at
(z=14, x=100, y=200) against a database holding no tiles. -/
theorem tile_not_found_responses_witness :
    (tilesGET (fun _ _ _ _ => none) "nosuch" 14 100 200).status = 404
    ∧ (tilesGET (fun _ _ _ _ => none) "nosuch" 14 100 200).text
        = "Orchard '" ++ "nosuch" ++ "' not found"
    ∧ (tilesGET (fun _ _ _ _ => none) "manytrees" 14 100 200).status = 404
    ∧ (tilesGET (fun _ _ _ _ => none) "manytrees" 14 100 200).text
        = "Tile not found: " ++ toString 14 ++ "/" ++ toString 100 ++ "/"
          ++ toString 200 ++ " (TMS: " ++ toString (tmsYOf 200) ++ ")"
    ∧ mentions (toString 14 ++ "/" ++ toString 100 ++ "/" ++ toString 200)
        ((tilesGET (fun _ _ _ _ => none) "manytrees" 14 100 200).text) = true :=
  tile_not_found_responses "nosuch" "manytrees"
    "public/orchards/manytreesorchard/manytrees.mbtiles" (by decide) (by decide)
    (fun _ _ _ _ => none) 14 100 200 rfl

theorem validateHeaderBody_metadata_iff_valid (h : PMTilesHeader)
    (tk : TileKind) (w1 : List String) :
    (validateHeaderBody h tk w1).metadata.isSome = (validateHeaderBody h tk w1).valid := by
  unfold validateHeaderBody
  split
  · simp
  · simp [invalidResult]

/-- C6: in both validators, the result carries metadata exactly when it is
valid — every failure branch returns no metadata and the success branch
always returns the (normalized, resp. fetched) metadata record. -/
theorem metadata_iff_valid :
    ∀ (input : HeaderRead) (e : Except String ClientPMTilesMetadata),
    ((validatePMTilesFile input).metadata.isSome = (validatePMTilesFile input).valid)
    ∧ ((validatePMTiles e).metadata.isSome = (validatePMTiles e).valid) := by
  intro input e
  constructor
  · cases input with
    | readError msg => simp [validatePMTilesFile, invalidResult]
    | noHeader => simp [validatePMTilesFile, invalidResult]
    | ok h =>
      by_cases h1 : h.tileType = 1
      · simp [validatePMTilesFile, h1, validateHeaderBody_metadata_iff_valid]
      · by_cases h2 : h.tileType = 2
        · simp [validatePMTilesFile, h1, h2, validateHeaderBody_metadata_iff_valid]
        · simp [validatePMTilesFile, h1, h2, invalidResult]
  · cases e with
    | ok m => rfl
    | error msg => rfl

/-- C4: a raster header with all four bounds present, non-world bounds,
max zoom within the cap and no explicit center validates cleanly: result
valid, no warnings, and the center is derived as the bounds midpoint —
deriving the center is never a failure. -/
theorem clean_raster_validation (h : PMTilesHeader) (a b c d : ℚ)
    (ht : h.tileType = 1)
    (h1 : h.minLon = some a) (h2 : h.minLat = some b)
    (h3 : h.maxLon = some c) (h4 : h.maxLat = some d)
    (hw : ¬(a ≤ -180 ∧ c ≥ 180 ∧ b ≤ -85 ∧ d ≥ 85))
    (hz : h.maxZoom ≤ (21.5 : ℚ))
    (hc1 : h.centerLon = none) (hc2 : h.centerLat = none) :
    validatePMTilesFile (HeaderRead.ok h)
      = { valid := true, error := none, warnings := none,
          metadata := some
            { bounds := { minLng := a, minLat := b, maxLng := c, maxLat := d }
              center := { lng := (a + c) / 2, lat := (b + d) / 2 }
              minZoom := h.minZoom, maxZoom := h.maxZoom
              tileType := TileKind.raster } } := by
  have hcap : ¬ ((21.5 : ℚ) < h.maxZoom) := not_lt.mpr hz
  simp [validatePMTilesFile, validateHeaderBody, ht, h1, h2, h3, h4,
    hc1, hc2, hw, hcap, min_eq_left hz]

/-- A clean raster header at the repository's sample orchard bounds. -/
def cleanRasterHeader : PMTilesHeader :=
  { minZoom := 5, maxZoom := 20
    minLon := some (-123169/1000), minLat := some (48141/1000)
    maxLon := some (-123167/1000), maxLat := some (48142/1000)
    centerZoom := 17, centerLon := none, centerLat := none
    tileType := 1 }

/-- Witness for C4 at the concrete clean raster header. -/
theorem clean_raster_validation_witness :
    validatePMTilesFile (HeaderRead.ok cleanRasterHeader)
      = { valid := true, error := none, warnings := none,
          metadata := some
            { bounds := { minLng := -123169/1000, minLat := 48141/1000,
                          maxLng := -123167/1000, maxLat := 48142/1000 }
              center := { lng := (-123169/1000 + -123167/1000) / 2,
                          lat := (48141/1000 + 48142/1000) / 2 }
              minZoom := cleanRasterHeader.minZoom
              maxZoom := cleanRasterHeader.maxZoom
              tileType := TileKind.raster } } :=
  clean_raster_validation cleanRasterHeader
    (-123169/1000) (48141/1000) (-123167/1000) (48142/1000)
    rfl rfl rfl rfl rfl (by norm_num) (by norm_num [cleanRasterHeader]) rfl rfl

/-- C5: a header that passes the tile-type gate and has all four bounds
present gets a warning — not a failure — when its bounds span the world on
all four sides simultaneously: the result is valid and the warnings carry
the world-bounds advisory. -/
theorem world_bounds_warn_not_fail (h : PMTilesHeader) (a b c d : ℚ)
    (ht : h.tileType = 1 ∨ h.tileType = 2)
    (h1 : h.minLon = some a) (h2 : h.minLat = some b)
    (h3 : h.maxLon = some c) (h4 : h.maxLat = some d)
    (hw : a ≤ -180 ∧ c ≥ 180 ∧ b ≤ -85 ∧ d ≥ 85) :
    (validatePMTilesFile (HeaderRead.ok h)).valid = true
    ∧ worldBoundsWarning ∈ ((validatePMTilesFile (HeaderRead.ok h)).warnings.getD []) := by
  rcases ht with ht | ht <;>
    by_cases hcap : h.maxZoom > (21.5 : ℚ) <;>
      simp [validatePMTilesFile, validateHeaderBody, ht, h1, h2, h3, h4, hw, hcap]

/-- A raster header declaring full-world bounds. -/
def worldBoundsHeader : PMTilesHeader :=
  { minZoom := 0, maxZoom := 20
    minLon := some (-180), minLat := some (-85)
    maxLon := some 180, maxLat := some 85
    centerZoom := 2, centerLon := none, centerLat := none
    tileType := 1 }

/-- Witness for C5 at the concrete world-bounds header. -/
theorem world_bounds_warn_not_fail_witness :
    (validatePMTilesFile (HeaderRead.ok worldBoundsHeader)).valid = true
    ∧ worldBoundsWarning
        ∈ ((validatePMTilesFile (HeaderRead.ok worldBoundsHeader)).warnings.getD []) :=
  world_bounds_warn_not_fail worldBoundsHeader (-180) (-85) 180 85
    (Or.inl rfl) rfl rfl rfl rfl (by norm_num)

theorem mentions_of_data (needle hay : String) (pre post : List Char)
    (h : hay.data = pre ++ needle.data ++ post) : mentions needle hay = true := by
  unfold mentions
  rw [h]
  exact containsSeq_append needle.data pre post

theorem capWarning_mentions_marker (mz : ℚ) :
    mentions "Max zoom capped" (maxZoomCapWarning mz) = true := by
  apply mentions_of_data _ _ []
    ((" at 21.5 (was ").data ++ (toString mz).data
      ++ (") to prevent map rendering issues.").data)
  unfold maxZoomCapWarning
  rw [string_data_append, string_data_append]
  have hsplit : ("Max zoom capped at 21.5 (was ").data
      = ("Max zoom capped").data ++ (" at 21.5 (was ").data := by decide
  rw [hsplit]
  simp [List.append_assoc]

theorem capWarning_mentions_original (mz : ℚ) :
    mentions (toString mz) (maxZoomCapWarning mz) = true :=
  mentions_append_middle (toString mz) "Max zoom capped at 21.5 (was "
    ") to prevent map rendering issues."

theorem capWarning_mentions_cap (mz : ℚ) :
    mentions "21.5" (maxZoomCapWarning mz) = true := by
  apply mentions_of_data _ _ ("Max zoom capped at ").data
    ((" (was ").data ++ (toString mz).data
      ++ (") to prevent map rendering issues.").data)
  unfold maxZoomCapWarning
  rw [string_data_append, string_data_append]
  have hsplit : ("Max zoom capped at 21.5 (was ").data
      = ("Max zoom capped at ").data ++ ("21.5").data ++ (" (was ").data := by decide
  rw [hsplit]
  simp [List.append_assoc]

theorem vector_no_cap_mention : mentions "Max zoom capped" vectorWarning = false := by
  decide

theorem world_no_cap_mention : mentions "Max zoom capped" worldBoundsWarning = false := by
  decide

/-- C3: for a header that passes the tile-type and bounds gates, validation
succeeds and the reported max zoom is the declared one clamped to 21.5: when
the declared value exceeds 21.5 the metadata carries 21.5 and a warning
mentioning both the original value and 21.5 is emitted; when it is at most
21.5 the value passes through unchanged and no clamp warning appears. -/
theorem maxZoom_clamped_at_21_5 (h : PMTilesHeader) (a b c d : ℚ)
    (ht : h.tileType = 1 ∨ h.tileType = 2)
    (h1 : h.minLon = some a) (h2 : h.minLat = some b)
    (h3 : h.maxLon = some c) (h4 : h.maxLat = some d) :
    (validatePMTilesFile (HeaderRead.ok h)).valid = true
    ∧ ((validatePMTilesFile (HeaderRead.ok h)).metadata.map ValidationMetadata.maxZoom)
        = some (if h.maxZoom > (21.5 : ℚ) then (21.5 : ℚ) else h.maxZoom)
    ∧ ((validatePMTilesFile (HeaderRead.ok h)).warnings.getD []).any
        (fun w => mentions "Max zoom capped" w)
        = decide (h.maxZoom > (21.5 : ℚ))
    ∧ mentions (toString h.maxZoom) (maxZoomCapWarning h.maxZoom) = true
    ∧ mentions "21.5" (maxZoomCapWarning h.maxZoom) = true := by
  have hmin : min h.maxZoom (21.5 : ℚ)
      = if h.maxZoom > (21.5 : ℚ) then (21.5 : ℚ) else h.maxZoom := by
    by_cases hc : h.maxZoom > (21.5 : ℚ)
    · simp [hc, min_eq_right (le_of_lt hc)]
    · simp [hc, min_eq_left (not_lt.mp hc)]
  rcases ht with ht | ht <;>
    by_cases hw : (a ≤ -180 ∧ c ≥ 180 ∧ b ≤ -85 ∧ d ≥ 85) <;>
      by_cases hcap : h.maxZoom > (21.5 : ℚ) <;>
        simp [validatePMTilesFile, validateHeaderBody, ht, h1, h2, h3, h4, hw, hcap,
          hmin, capWarning_mentions_marker, capWarning_mentions_original,
          capWarning_mentions_cap, vector_no_cap_mention, world_no_cap_mention]

/-- The clean raster header, but declaring `maxZoom = 25`. -/
def overZoomHeader : PMTilesHeader :=
  { minZoom := 5, maxZoom := 25
    minLon := some (-123169/1000), minLat := some (48141/1000)
    maxLon := some (-123167/1000), maxLat := some (48142/1000)
    centerZoom := 17, centerLon := none, centerLat := none
    tileType := 1 }

/-- Witness for C3 at the concrete header declaring `maxZoom = 25`. -/
theorem maxZoom_clamped_at_21_5_witness :
    (validatePMTilesFile (HeaderRead.ok overZoomHeader)).valid = true
    ∧ ((validatePMTilesFile (HeaderRead.ok overZoomHeader)).metadata.map
          ValidationMetadata.maxZoom)
        = some (if overZoomHeader.maxZoom > (21.5 : ℚ) then (21.5 : ℚ)
            else overZoomHeader.maxZoom)
    ∧ ((validatePMTilesFile (HeaderRead.ok overZoomHeader)).warnings.getD []).any
        (fun w => mentions "Max zoom capped" w)
        = decide (overZoomHeader.maxZoom > (21.5 : ℚ))
    ∧ mentions (toString overZoomHeader.maxZoom)
        (maxZoomCapWarning overZoomHeader.maxZoom) = true
    ∧ mentions "21.5" (maxZoomCapWarning overZoomHeader.maxZoom) = true :=
  maxZoom_clamped_at_21_5 overZoomHeader
    (-123169/1000) (48141/1000) (-123167/1000) (48142/1000)
    (Or.inl rfl) rfl rfl rfl rfl

/-- C7: when validation fails, the upload flow answers 400 carrying the
validator's structured error, inserts no orchard row, leaves the
configuration registry untouched, and the temporary upload file is removed;
in particular a header with an unrecognized tile-type code fails with the
error naming that code. -/
theorem failed_validation_persists_nothing (oid nm loc : String)
    (input : HeaderRead)
    (hv : (validatePMTilesFile input).valid = false)
    (hdr2 : PMTilesHeader) (ht1 : hdr2.tileType ≠ 1) (ht2 : hdr2.tileType ≠ 2) :
    (processUpload oid nm loc input).status = 400
    ∧ (processUpload oid nm loc input).orchardInserted = none
    ∧ (processUpload oid nm loc input).configUpdated = false
    ∧ (processUpload oid nm loc input).uploadedFileAt = none
    ∧ (processUpload oid nm loc input).errorText
        = some ((validatePMTilesFile input).error.getD "Invalid PMTiles file")
    ∧ (validatePMTilesFile (HeaderRead.ok hdr2)).valid = false
    ∧ (validatePMTilesFile (HeaderRead.ok hdr2)).error
        = some (unsupportedTileTypeMsg hdr2.tileType)
    ∧ mentions (toString hdr2.tileType) (unsupportedTileTypeMsg hdr2.tileType)
        = true := by
  refine ⟨by simp [processUpload, hv], by simp [processUpload, hv],
    by simp [processUpload, hv], by simp [processUpload, hv],
    by simp [processUpload, hv],
    by simp [validatePMTilesFile, ht1, ht2, invalidResult],
    by simp [validatePMTilesFile, ht1, ht2, invalidResult], ?_⟩
  show mentions (toString hdr2.tileType)
    ("Unsupported tile type: " ++ toString hdr2.tileType
      ++ ". Expected raster (1) or vector (2).") = true
  exact mentions_append_middle _ _ _

/-- A header with the unrecognized tile-type code 7. -/
def badTypeHeader : PMTilesHeader :=
  { minZoom := 5, maxZoom := 20
    minLon := some (-123169/1000), minLat := some (48141/1000)
    maxLon := some (-123167/1000), maxLat := some (48142/1000)
    centerZoom := 17, centerLon := none, centerLat := none
    tileType := 7 }

/-- Witness for C7: uploading an archive whose header carries tile-type 7. -/
theorem failed_validation_persists_nothing_witness :
    (processUpload "myorchard" "My Orchard" "WA"
        (HeaderRead.ok badTypeHeader)).status = 400
    ∧ (processUpload "myorchard" "My Orchard" "WA"
        (HeaderRead.ok badTypeHeader)).orchardInserted = none
    ∧ (processUpload "myorchard" "My Orchard" "WA"
        (HeaderRead.ok badTypeHeader)).configUpdated = false
    ∧ (processUpload "myorchard" "My Orchard" "WA"
        (HeaderRead.ok badTypeHeader)).uploadedFileAt = none
    ∧ (processUpload "myorchard" "My Orchard" "WA"
        (HeaderRead.ok badTypeHeader)).errorText
        = some ((validatePMTilesFile (HeaderRead.ok badTypeHeader)).error.getD
            "Invalid PMTiles file")
    ∧ (validatePMTilesFile (HeaderRead.ok badTypeHeader)).valid = false
    ∧ (validatePMTilesFile (HeaderRead.ok badTypeHeader)).error
        = some (unsupportedTileTypeMsg badTypeHeader.tileType)
    ∧ mentions (toString badTypeHeader.tileType)
        (unsupportedTileTypeMsg badTypeHeader.tileType) = true :=
  failed_validation_persists_nothing "myorchard" "My Orchard" "WA"
    (HeaderRead.ok badTypeHeader) (by decide) badTypeHeader (by decide) (by decide)
